import Mathlib

/-!
Verification of the WebflowStyles designer-extension front-end.

The development shallowly embeds the three source files' logic
(`src/src/index.ts` and its compiled `src/public/index.js`): the host
environment (selection, style creation, persistence) is represented by an
explicit record of outcomes, DOM feedback becomes an explicit list of
`Feedback` values, and each handler becomes a total Lean function from the
host state to its observable effects.
-/

namespace WebflowStyles

/-- Kind of a feedback message shown by `displayFeedback`: the source passes
the literal strings "error" or "success" and colors the text accordingly. -/
inductive FeedbackKind where
  | error : FeedbackKind
  | success : FeedbackKind
deriving DecidableEq, Repr

/-- One call to `displayFeedback(message, type)` in the source. -/
structure Feedback where
  message : String
  kind : FeedbackKind
deriving DecidableEq, Repr

/-- A style handle as created by `webflow.createStyle(styleName)` followed by
`setProperties(styleObject)`: a name plus a property map (association list). -/
structure NamedStyle where
  name : String
  properties : List (String × String)
deriving DecidableEq, Repr

/-- The currently selected host element, as consumed by the handlers.
`hasStyles` is the truthiness of the optional `styles` field tested by the
guard `if (selectedElement.styles)`. `getStylesResult` is what the expression
`selectedElement.getStyles()` delivers to the search in `checkComboClass`:
`Except.ok names` when the host hands back a resolved collection of style
handles (modelled by their `getName()` strings), `Except.error e` when the
evaluation faults (for instance when the host returns an unresolved promise,
on which `.some` is not a function). `saveResult` is the outcome of
`selectedElement.save()`. -/
structure SelectedElem where
  hasStyles : Bool
  getStylesResult : Except String (List String)
  saveResult : Except String Unit
deriving Repr

/-- The host environment for one handler invocation: the selection returned
by `webflow.getSelectedElement()`, the outcome of `webflow.createStyle`
(which throws inside the `try` on failure), and the outcome of
`myStyle.save()`. -/
structure Host where
  selectedElement : Option SelectedElem
  createStyleResult : Except String Unit
  styleSaveResult : Except String Unit
deriving Repr

/-- Observable effects of one `applyStyles` call: the feedback messages
displayed, the names passed to `webflow.createStyle`, the styles whose
`save()` resolved (persisted in the host), the argument of
`selectedElement.setStyles` when it was called, and whether
`selectedElement.save()` resolved. -/
structure ApplyResult where
  feedbacks : List Feedback
  createdStyleNames : List String
  persistedStyles : List NamedStyle
  elementStyles : Option (List NamedStyle)
  elementSaved : Bool
deriving DecidableEq, Repr

/-- Shallow embedding of `applyStyles(styleObject, styleName)` from
`src/src/index.ts`: fetch the selection (absent selection reports an error and
returns), then inside `try` create the style, set its properties, await its
save, and only if the element exposes a `styles` collection attach the single
new style, save the element and report success; any throw is caught and
reported as "Error applying styles: " plus the message. -/
def applyStyles (host : Host) (styleObject : List (String × String))
    (styleName : String) : ApplyResult :=
  match host.selectedElement with
  | none =>
      { feedbacks := [⟨"No element is currently selected.", FeedbackKind.error⟩],
        createdStyleNames := [], persistedStyles := [],
        elementStyles := none, elementSaved := false }
  | some selectedElement =>
      match host.createStyleResult with
      | Except.error e =>
          { feedbacks := [⟨"Error applying styles: " ++ e, FeedbackKind.error⟩],
            createdStyleNames := [], persistedStyles := [],
            elementStyles := none, elementSaved := false }
      | Except.ok _ =>
          let myStyle : NamedStyle := ⟨styleName, styleObject⟩
          match host.styleSaveResult with
          | Except.error e =>
              { feedbacks := [⟨"Error applying styles: " ++ e, FeedbackKind.error⟩],
                createdStyleNames := [styleName], persistedStyles := [],
                elementStyles := none, elementSaved := false }
          | Except.ok _ =>
              if selectedElement.hasStyles then
                match selectedElement.saveResult with
                | Except.error e =>
                    { feedbacks := [⟨"Error applying styles: " ++ e, FeedbackKind.error⟩],
                      createdStyleNames := [styleName], persistedStyles := [myStyle],
                      elementStyles := some [myStyle], elementSaved := false }
                | Except.ok _ =>
                    { feedbacks := [⟨"Styles successfully applied!", FeedbackKind.success⟩],
                      createdStyleNames := [styleName], persistedStyles := [myStyle],
                      elementStyles := some [myStyle], elementSaved := true }
              else
                { feedbacks := [], createdStyleNames := [styleName],
                  persistedStyles := [myStyle],
                  elementStyles := none, elementSaved := false }

/-- Shallow embedding of `checkComboClass(comboClassName)`: fetch the
selection (absent selection reports an error), then inside `try` obtain the
element's styles and search them with
`styles.some((style) => style.getName() === comboClassName)`; report success
or error feedback naming the combo class, and catch any throw as
"Error checking for combo class: " plus the message. -/
def checkComboClass (host : Host) (comboClassName : String) : List Feedback :=
  match host.selectedElement with
  | none => [⟨"No element is currently selected.", FeedbackKind.error⟩]
  | some selectedElement =>
      match selectedElement.getStylesResult with
      | Except.error e =>
          [⟨"Error checking for combo class: " ++ e, FeedbackKind.error⟩]
      | Except.ok styleNames =>
          if styleNames.any (fun n => n == comboClassName) then
            [⟨"Combo class \"" ++ comboClassName ++ "\" exists.", FeedbackKind.success⟩]
          else
            [⟨"Combo class \"" ++ comboClassName ++ "\" does not exist.", FeedbackKind.error⟩]

/-- One character class of the regex `[A-Fa-f0-9]`. -/
def isHexDigitChar (c : Char) : Bool :=
  ('A' ≤ c && c ≤ 'F') || ('a' ≤ c && c ≤ 'f') || ('0' ≤ c && c ≤ '9')

/-- The test of the source regex `^#([A-Fa-f0-9]{6}|[A-Fa-f0-9]{3})$`: the
whole string is a hash sign followed by exactly six or exactly three
characters of the class `[A-Fa-f0-9]`. -/
def matchesHexColorRegex (s : String) : Bool :=
  match s.data with
  | [] => false
  | c :: rest =>
      c == '#' && (rest.length == 6 || rest.length == 3) && rest.all isHexDigitChar

/-- Shallow embedding of `getFontColorValue()`: the two DOM reads become the
two string arguments. The source returns the hex input field's value when it
is truthy (non-empty) and passes the regex test, and the dropdown's value
otherwise. -/
def getFontColorValue (hexInputValue dropdownValue : String) : String :=
  if !hexInputValue.isEmpty && matchesHexColorRegex hexInputValue then
    hexInputValue
  else
    dropdownValue

/-- The literal font list of `populateFontFamilyDropdown`. -/
def fonts : List String :=
  ["Arial", "Verdana", "Helvetica", "Times New Roman", "Georgia", "Courier New"]

/-- Shallow embedding of `populateFontFamilyDropdown()`: when the dropdown
element exists, one option element is appended per font, with `value` and
`textContent` both set to the font string; when it is absent the optional
chaining `fontFamilyDropdown?.appendChild` appends nothing. The result is
the list of appended (value, label) pairs. -/
def populateFontFamilyDropdown (dropdownPresent : Bool) : List (String × String) :=
  if dropdownPresent then fonts.map (fun font => (font, font)) else []

/-- Decimal string of a natural number, modelling the JavaScript template
interpolation of the numeric counter in the template literal that builds the
style name. -/
def natToString (n : Nat) : String :=
  if n = 0 then "0" else String.mk (((Nat.digits 10 n).map Nat.digitChar).reverse)

/-- The style name generated from a counter value: the template literal
produces the text "dynamicStyle" followed by the decimal counter. -/
def nextStyleName (styleCounter : Nat) : String :=
  "dynamicStyle" ++ natToString styleCounter

/-- The UI state read by one click of the submit button: the host environment
plus the current values of the font-size dropdown, the hex color input, the
color dropdown and the font-family dropdown. -/
structure ClickEnv where
  host : Host
  fontSizeValue : String
  hexColorValue : String
  colorDropdownValue : String
  fontFamilyValue : String
deriving Repr

/-- Shallow embedding of the submit-button click handler installed at
bootstrap: read the three control values (the color through
`getFontColorValue`), generate the style name from the counter with
post-increment, and invoke `applyStyles` with the three-key style object.
Returns the new counter, the generated name and the apply outcome. -/
def submitClick (styleCounter : Nat) (env : ClickEnv) : Nat × String × ApplyResult :=
  let fontColor := getFontColorValue env.hexColorValue env.colorDropdownValue
  let styleName := nextStyleName styleCounter
  let result := applyStyles env.host
    [("font-size", env.fontSizeValue), ("color", fontColor),
     ("font-family", env.fontFamilyValue)]
    styleName
  (styleCounter + 1, styleName, result)

/-- A session of submit clicks starting from a given counter value: the
bootstrap initializes the counter to 0 and each click runs `submitClick`.
Returns the final counter and, per click, the generated name and outcome. -/
def runSession : Nat → List ClickEnv → Nat × List (String × ApplyResult)
  | styleCounter, [] => (styleCounter, [])
  | styleCounter, env :: rest =>
      let step := submitClick styleCounter env
      let tail := runSession step.1 rest
      (tail.1, (step.2.1, step.2.2) :: tail.2)

/-- A click counts as a successful apply when it displayed a success
feedback. -/
def isSuccessfulApply (r : ApplyResult) : Bool :=
  r.feedbacks.any (fun f => f.kind == FeedbackKind.success)

/-- The string `sub` occurs contiguously inside `s`. -/
def containsSubstring (s sub : String) : Prop :=
  ∃ pre post : String, s = pre ++ sub ++ post

/-! Helper lemmas about decimal style names and sessions. -/

theorem digitChar_inj_of_lt : ∀ a : Nat, a < 10 → ∀ b : Nat, b < 10 →
    Nat.digitChar a = Nat.digitChar b → a = b := by decide

theorem map_digitChar_inj : ∀ l1 l2 : List Nat, (∀ d ∈ l1, d < 10) → (∀ d ∈ l2, d < 10) →
    l1.map Nat.digitChar = l2.map Nat.digitChar → l1 = l2 := by
  intro l1
  induction l1 with
  | nil =>
      intro l2 _ _ h
      cases l2 with
      | nil => rfl
      | cons b t => simp at h
  | cons a t ih =>
      intro l2 h1 h2 h
      cases l2 with
      | nil => simp at h
      | cons b t2 =>
          simp only [List.map_cons, List.cons.injEq] at h
          have ha : a = b :=
            digitChar_inj_of_lt a (h1 a (by simp)) b (h2 b (by simp)) h.1
          have ht : t = t2 :=
            ih t2 (fun d hd => h1 d (by simp [hd])) (fun d hd => h2 d (by simp [hd])) h.2
          rw [ha, ht]

theorem natToString_ne_zero_str {n : Nat} (hn : n ≠ 0) : natToString n ≠ "0" := by
  intro h
  simp only [natToString, if_neg hn] at h
  have hd : (((Nat.digits 10 n).map Nat.digitChar).reverse) = ['0'] :=
    congrArg String.data h
  have hmap : (Nat.digits 10 n).map Nat.digitChar = ['0'] := by
    have h2 := congrArg List.reverse hd
    simpa using h2
  have hlen : (Nat.digits 10 n).length = 1 := by
    have h3 := congrArg List.length hmap
    simpa using h3
  obtain ⟨d, hdig⟩ := List.length_eq_one.mp hlen
  have hdc : Nat.digitChar d = '0' := by
    rw [hdig] at hmap
    simpa using hmap
  have hdlt : d < 10 := Nat.digits_lt_base (by norm_num) (by rw [hdig]; simp)
  have hdz : d = 0 := digitChar_inj_of_lt d hdlt 0 (by norm_num) hdc
  apply hn
  have h4 := Nat.ofDigits_digits 10 n
  rw [hdig, hdz] at h4
  simpa [Nat.ofDigits] using h4.symm

theorem natToString_injective : Function.Injective natToString := by
  intro m n h
  by_cases hm : m = 0 <;> by_cases hn : n = 0
  · rw [hm, hn]
  · exfalso
    apply natToString_ne_zero_str hn
    rw [← h, hm]
    rfl
  · exfalso
    apply natToString_ne_zero_str hm
    rw [h, hn]
    rfl
  · simp only [natToString, if_neg hm, if_neg hn] at h
    have hd : (((Nat.digits 10 m).map Nat.digitChar).reverse) =
        (((Nat.digits 10 n).map Nat.digitChar).reverse) :=
      congrArg String.data h
    have hmap := List.reverse_injective hd
    have hdig : Nat.digits 10 m = Nat.digits 10 n :=
      map_digitChar_inj _ _ (fun d hd2 => Nat.digits_lt_base (by norm_num) hd2)
        (fun d hd2 => Nat.digits_lt_base (by norm_num) hd2) hmap
    exact Nat.digits_inj_iff.mp hdig

theorem nextStyleName_injective : Function.Injective nextStyleName := by
  intro a b h
  apply natToString_injective
  simp only [nextStyleName] at h
  have hd := congrArg String.data h
  rw [String.data_append, String.data_append] at hd
  exact String.ext (List.append_cancel_left hd)

theorem natToString_one : natToString 1 = "1" := by
  have h : Nat.digits 10 1 = [1] := Nat.digits_of_lt 10 1 (by norm_num) (by norm_num)
  simp only [natToString, if_neg (by norm_num : (1 : Nat) ≠ 0), h]
  decide

theorem runSession_counter (styleCounter : Nat) (envs : List ClickEnv) :
    (runSession styleCounter envs).1 = styleCounter + envs.length := by
  induction envs generalizing styleCounter with
  | nil => simp [runSession]
  | cons env rest ih =>
      simp only [runSession, submitClick, List.length_cons]
      rw [ih]
      omega

theorem range_map_shift {α : Type} (f : Nat → α) (c n : Nat) :
    f c :: (List.range n).map (fun i => f (c + 1 + i)) =
      (List.range (n + 1)).map (fun i => f (c + i)) := by
  rw [List.range_succ_eq_map, List.map_cons, List.map_map]
  have hhead : f (c + 0) = f c := by rw [Nat.add_zero]
  have htail : List.map ((fun i => f (c + i)) ∘ Nat.succ) (List.range n) =
      List.map (fun i => f (c + 1 + i)) (List.range n) := by
    apply List.map_congr_left
    intro i _
    show f (c + Nat.succ i) = f (c + 1 + i)
    have harith : c + Nat.succ i = c + 1 + i := by omega
    rw [harith]
  rw [hhead, htail]

theorem runSession_names (styleCounter : Nat) (envs : List ClickEnv) :
    (runSession styleCounter envs).2.map Prod.fst =
      (List.range envs.length).map (fun i => nextStyleName (styleCounter + i)) := by
  induction envs generalizing styleCounter with
  | nil => simp [runSession]
  | cons env rest ih =>
      simp only [runSession, submitClick, List.map_cons, List.length_cons]
      rw [ih]
      exact range_map_shift nextStyleName styleCounter rest.length

/-- A click whose host has no current selection, used as a concrete failed
apply click. -/
def noSelectionClick : ClickEnv :=
  { host := { selectedElement := none, createStyleResult := Except.ok (),
              styleSaveResult := Except.ok () },
    fontSizeValue := "16px", hexColorValue := "", colorDropdownValue := "red",
    fontFamilyValue := "Arial" }

/-! Claim theorems. -/

/-- C1: when the host returns a selected element and the element's style
collection resolves to a list of display names, `checkComboClass name`
reports exactly one Success feedback whose message contains `name` if some
resolved style name equals `name` exactly, and exactly one Error feedback
whose message contains `name` otherwise; the search is plain list membership,
hence case-sensitive and order-independent. -/
theorem checkComboClass_correct (host : Host) (el : SelectedElem)
    (styleNames : List String) (comboClassName : String)
    (hsel : host.selectedElement = some el)
    (hstyles : el.getStylesResult = Except.ok styleNames) :
    (comboClassName ∈ styleNames →
      checkComboClass host comboClassName =
        [⟨"Combo class \"" ++ comboClassName ++ "\" exists.", FeedbackKind.success⟩] ∧
      containsSubstring ("Combo class \"" ++ comboClassName ++ "\" exists.")
        comboClassName) ∧
    (comboClassName ∉ styleNames →
      checkComboClass host comboClassName =
        [⟨"Combo class \"" ++ comboClassName ++ "\" does not exist.", FeedbackKind.error⟩] ∧
      containsSubstring ("Combo class \"" ++ comboClassName ++ "\" does not exist.")
        comboClassName) := by
  constructor
  · intro hmem
    refine ⟨?_, "Combo class \"", "\" exists.", rfl⟩
    have hany : styleNames.any (fun n => n == comboClassName) = true := by
      simp only [List.any_eq_true, beq_iff_eq]
      exact ⟨comboClassName, hmem, rfl⟩
    simp [checkComboClass, hsel, hstyles, hany]
  · intro hmem
    refine ⟨?_, "Combo class \"", "\" does not exist.", rfl⟩
    have hany : styleNames.any (fun n => n == comboClassName) = false := by
      cases hcase : styleNames.any (fun n => n == comboClassName)
      · rfl
      · exfalso
        obtain ⟨n, hn, heq⟩ := List.any_eq_true.mp hcase
        exact hmem (eq_of_beq heq ▸ hn)
    simp [checkComboClass, hsel, hstyles, hany]

/-- Witness for C1 at a concrete host whose selected element resolves the
style names ["hero", "card"]. -/
theorem checkComboClass_correct_witness :
    checkComboClass
        { selectedElement := some { hasStyles := true,
                                    getStylesResult := Except.ok ["hero", "card"],
                                    saveResult := Except.ok () },
          createStyleResult := Except.ok (), styleSaveResult := Except.ok () }
        "hero" =
      [⟨"Combo class \"" ++ "hero" ++ "\" exists.", FeedbackKind.success⟩] ∧
    containsSubstring ("Combo class \"" ++ "hero" ++ "\" exists.") "hero" :=
  (checkComboClass_correct
      { selectedElement := some { hasStyles := true,
                                  getStylesResult := Except.ok ["hero", "card"],
                                  saveResult := Except.ok () },
        createStyleResult := Except.ok (), styleSaveResult := Except.ok () }
      { hasStyles := true, getStylesResult := Except.ok ["hero", "card"],
        saveResult := Except.ok () }
      ["hero", "card"] "hero" rfl rfl).1 (by simp)

/-- C2 counterexample: the source increments the counter on every submit
click, before `applyStyles` runs; after a single click that early-exits with
no selection (so zero successful applies), the next generated style name is
dynamicStyle1, not dynamicStyle0 as the claim requires. -/
theorem styleCounter_claim_counterexample :
    ((runSession 0 [noSelectionClick]).2.filter
        (fun p => isSuccessfulApply p.2)).length = 0 ∧
    (runSession 0 [noSelectionClick]).1 = 1 ∧
    nextStyleName (runSession 0 [noSelectionClick]).1 = "dynamicStyle1" ∧
    nextStyleName (runSession 0 [noSelectionClick]).1 ≠ "dynamicStyle0" := by
  have hrun : (runSession 0 [noSelectionClick]).1 = 1 := rfl
  have hone : nextStyleName 1 = "dynamicStyle1" := by
    rw [nextStyleName, natToString_one]
    decide
  refine ⟨rfl, rfl, ?_, ?_⟩
  · rw [hrun, hone]
  · rw [hrun, hone]
    decide

/-- C2 amended: the counter starts at 0 and is incremented exactly once per
apply click, whether the click succeeds, fails, or early-exits; after N
clicks of any outcome the next generated style name is dynamicStyle<N>
(starting at dynamicStyle0), and the i-th click generated dynamicStyle<i>. -/
theorem styleCounter_per_click (envs : List ClickEnv) :
    (runSession 0 envs).1 = envs.length ∧
    nextStyleName (runSession 0 envs).1 = "dynamicStyle" ++ natToString envs.length ∧
    (runSession 0 envs).2.map Prod.fst =
      (List.range envs.length).map (fun i => "dynamicStyle" ++ natToString i) := by
  refine ⟨?_, ?_, ?_⟩
  · rw [runSession_counter]
    omega
  · rw [runSession_counter, nextStyleName, Nat.zero_add]
  · rw [runSession_names]
    apply List.map_congr_left
    intro i _
    rw [nextStyleName, Nat.zero_add]

/-- C3: with a selected element exposing a styles collection and all three
host persistence calls succeeding, `applyStyles` creates and persists exactly
one NamedStyle carrying exactly the three given properties, replaces the
element's style list by the single-element list containing it, persists the
element, and reports exactly one Success feedback. -/
theorem applyStyles_success (host : Host) (el : SelectedElem)
    (fontSizeValue fontColorValue fontFamilyValue styleName : String)
    (hsel : host.selectedElement = some el)
    (hcreate : host.createStyleResult = Except.ok ())
    (hsave : host.styleSaveResult = Except.ok ())
    (hstyles : el.hasStyles = true)
    (helsave : el.saveResult = Except.ok ()) :
    applyStyles host
        [("font-size", fontSizeValue), ("color", fontColorValue),
         ("font-family", fontFamilyValue)] styleName =
      { feedbacks := [⟨"Styles successfully applied!", FeedbackKind.success⟩],
        createdStyleNames := [styleName],
        persistedStyles := [⟨styleName,
          [("font-size", fontSizeValue), ("color", fontColorValue),
           ("font-family", fontFamilyValue)]⟩],
        elementStyles := some [⟨styleName,
          [("font-size", fontSizeValue), ("color", fontColorValue),
           ("font-family", fontFamilyValue)]⟩],
        elementSaved := true } := by
  simp [applyStyles, hsel, hcreate, hsave, hstyles, helsave]

/-- Witness for C3 at the spec's concrete style values. -/
theorem applyStyles_success_witness :
    applyStyles
        { selectedElement := some { hasStyles := true,
                                    getStylesResult := Except.ok [],
                                    saveResult := Except.ok () },
          createStyleResult := Except.ok (), styleSaveResult := Except.ok () }
        [("font-size", "16px"), ("color", "#FF0000"), ("font-family", "Arial")]
        "dynamicStyle0" =
      { feedbacks := [⟨"Styles successfully applied!", FeedbackKind.success⟩],
        createdStyleNames := ["dynamicStyle0"],
        persistedStyles := [⟨"dynamicStyle0",
          [("font-size", "16px"), ("color", "#FF0000"), ("font-family", "Arial")]⟩],
        elementStyles := some [⟨"dynamicStyle0",
          [("font-size", "16px"), ("color", "#FF0000"), ("font-family", "Arial")]⟩],
        elementSaved := true } :=
  applyStyles_success
    { selectedElement := some { hasStyles := true, getStylesResult := Except.ok [],
                                saveResult := Except.ok () },
      createStyleResult := Except.ok (), styleSaveResult := Except.ok () }
    { hasStyles := true, getStylesResult := Except.ok [], saveResult := Except.ok () }
    "16px" "#FF0000" "Arial" "dynamicStyle0" rfl rfl rfl rfl rfl

/-- C4: with no selected element `applyStyles` never calls host
style-creation or any persistence operation, reports exactly one Error
feedback, and returns normally with an untouched element. -/
theorem applyStyles_no_selection (host : Host)
    (styleObject : List (String × String)) (styleName : String)
    (hsel : host.selectedElement = none) :
    applyStyles host styleObject styleName =
      { feedbacks := [⟨"No element is currently selected.", FeedbackKind.error⟩],
        createdStyleNames := [], persistedStyles := [],
        elementStyles := none, elementSaved := false } := by
  simp [applyStyles, hsel]

/-- Witness for C4 at a concrete empty-selection host. -/
theorem applyStyles_no_selection_witness :
    applyStyles
        { selectedElement := none, createStyleResult := Except.ok (),
          styleSaveResult := Except.ok () }
        [("font-size", "16px"), ("color", "#FF0000"), ("font-family", "Arial")]
        "dynamicStyle0" =
      { feedbacks := [⟨"No element is currently selected.", FeedbackKind.error⟩],
        createdStyleNames := [], persistedStyles := [],
        elementStyles := none, elementSaved := false } :=
  applyStyles_no_selection
    { selectedElement := none, createStyleResult := Except.ok (),
      styleSaveResult := Except.ok () }
    [("font-size", "16px"), ("color", "#FF0000"), ("font-family", "Arial")]
    "dynamicStyle0" rfl

/-- C5: the color resolver returns the hex input verbatim exactly when it is
non-empty and matches the regex, and otherwise returns the dropdown value
unchanged, including when that value is empty; it is a total function on
strings. -/
theorem getFontColorValue_spec (hexInputValue dropdownValue : String) :
    ((hexInputValue ≠ "" ∧ matchesHexColorRegex hexInputValue = true) →
      getFontColorValue hexInputValue dropdownValue = hexInputValue) ∧
    ((hexInputValue = "" ∨ matchesHexColorRegex hexInputValue = false) →
      getFontColorValue hexInputValue dropdownValue = dropdownValue) := by
  constructor
  · intro h
    have hne : hexInputValue.isEmpty = false := by
      rcases h with ⟨h1, _⟩
      cases hcase : hexInputValue.isEmpty
      · rfl
      · exact absurd ((String.isEmpty_iff hexInputValue).mp hcase) h1
    simp [getFontColorValue, hne, h.2]
  · intro h
    rcases h with h | h
    · have : hexInputValue.isEmpty = true := (String.isEmpty_iff hexInputValue).mpr h
      simp [getFontColorValue, this]
    · simp [getFontColorValue, h]

/-- Witness for C5: a valid mixed-case 6-digit hex wins over the dropdown; a
non-matching string falls back to the dropdown; the empty hex input falls
back even to an empty dropdown value. -/
theorem getFontColorValue_spec_witness :
    getFontColorValue "#1A2b3C" "green" = "#1A2b3C" ∧
    getFontColorValue "red" "green" = "green" ∧
    getFontColorValue "" "" = "" :=
  ⟨(getFontColorValue_spec "#1A2b3C" "green").1 ⟨by decide, by decide⟩,
   (getFontColorValue_spec "red" "green").2 (Or.inr (by decide)),
   (getFontColorValue_spec "" "").2 (Or.inl rfl)⟩

/-- C6: with a selected element, if the style creation, the style save, or
the element save fails with message `errMsg`, the error is caught and
`applyStyles` reports exactly one Error feedback whose message contains
`errMsg`, returning normally with no retry. -/
theorem applyStyles_persist_failure (host : Host) (el : SelectedElem)
    (styleObject : List (String × String)) (styleName errMsg : String)
    (hsel : host.selectedElement = some el)
    (hfail : host.createStyleResult = Except.error errMsg ∨
      (host.createStyleResult = Except.ok () ∧
        host.styleSaveResult = Except.error errMsg) ∨
      (host.createStyleResult = Except.ok () ∧
        host.styleSaveResult = Except.ok () ∧ el.hasStyles = true ∧
        el.saveResult = Except.error errMsg)) :
    (applyStyles host styleObject styleName).feedbacks =
      [⟨"Error applying styles: " ++ errMsg, FeedbackKind.error⟩] ∧
    containsSubstring ("Error applying styles: " ++ errMsg) errMsg := by
  constructor
  · rcases hfail with h | ⟨h1, h2⟩ | ⟨h1, h2, h3, h4⟩
    · simp [applyStyles, hsel, h]
    · simp [applyStyles, hsel, h1, h2]
    · simp [applyStyles, hsel, h1, h2, h3, h4]
  · refine ⟨"Error applying styles: ", "", ?_⟩
    rw [String.append_empty]

/-- Witness for C6 at a concrete host whose style save rejects. -/
theorem applyStyles_persist_failure_witness :
    (applyStyles
        { selectedElement := some { hasStyles := true,
                                    getStylesResult := Except.ok [],
                                    saveResult := Except.ok () },
          createStyleResult := Except.ok (),
          styleSaveResult := Except.error "boom" }
        [("font-size", "16px"), ("color", "#FF0000"), ("font-family", "Arial")]
        "dynamicStyle0").feedbacks =
      [⟨"Error applying styles: " ++ "boom", FeedbackKind.error⟩] ∧
    containsSubstring ("Error applying styles: " ++ "boom") "boom" :=
  applyStyles_persist_failure
    { selectedElement := some { hasStyles := true, getStylesResult := Except.ok [],
                                saveResult := Except.ok () },
      createStyleResult := Except.ok (), styleSaveResult := Except.error "boom" }
    { hasStyles := true, getStylesResult := Except.ok [], saveResult := Except.ok () }
    [("font-size", "16px"), ("color", "#FF0000"), ("font-family", "Arial")]
    "dynamicStyle0" "boom" rfl (Or.inr (Or.inl ⟨rfl, rfl⟩))

/-- C7: with a selected element that does not expose a styles collection and
a succeeding style persistence, `applyStyles` completes with no feedback at
all and neither modifies nor persists the element. -/
theorem applyStyles_unsupported_element (host : Host) (el : SelectedElem)
    (styleObject : List (String × String)) (styleName : String)
    (hsel : host.selectedElement = some el)
    (hcreate : host.createStyleResult = Except.ok ())
    (hsave : host.styleSaveResult = Except.ok ())
    (hnostyles : el.hasStyles = false) :
    (applyStyles host styleObject styleName).feedbacks = [] ∧
    (applyStyles host styleObject styleName).elementStyles = none ∧
    (applyStyles host styleObject styleName).elementSaved = false := by
  refine ⟨?_, ?_, ?_⟩ <;> simp [applyStyles, hsel, hcreate, hsave, hnostyles]

/-- Witness for C7 at a concrete element lacking a styles collection. -/
theorem applyStyles_unsupported_element_witness :
    (applyStyles
        { selectedElement := some { hasStyles := false,
                                    getStylesResult := Except.ok [],
                                    saveResult := Except.ok () },
          createStyleResult := Except.ok (), styleSaveResult := Except.ok () }
        [("font-size", "16px"), ("color", "#FF0000"), ("font-family", "Arial")]
        "dynamicStyle0").feedbacks = [] ∧
    (applyStyles
        { selectedElement := some { hasStyles := false,
                                    getStylesResult := Except.ok [],
                                    saveResult := Except.ok () },
          createStyleResult := Except.ok (), styleSaveResult := Except.ok () }
        [("font-size", "16px"), ("color", "#FF0000"), ("font-family", "Arial")]
        "dynamicStyle0").elementStyles = none ∧
    (applyStyles
        { selectedElement := some { hasStyles := false,
                                    getStylesResult := Except.ok [],
                                    saveResult := Except.ok () },
          createStyleResult := Except.ok (), styleSaveResult := Except.ok () }
        [("font-size", "16px"), ("color", "#FF0000"), ("font-family", "Arial")]
        "dynamicStyle0").elementSaved = false :=
  applyStyles_unsupported_element
    { selectedElement := some { hasStyles := false, getStylesResult := Except.ok [],
                                saveResult := Except.ok () },
      createStyleResult := Except.ok (), styleSaveResult := Except.ok () }
    { hasStyles := false, getStylesResult := Except.ok [], saveResult := Except.ok () }
    [("font-size", "16px"), ("color", "#FF0000"), ("font-family", "Arial")]
    "dynamicStyle0" rfl rfl rfl rfl

/-- C8: the font list provider yields exactly 6 font-family names in the
fixed literal order, and populating the present dropdown creates exactly one
option per entry with identical value and label. -/
theorem populateFontFamilyDropdown_options :
    fonts = ["Arial", "Verdana", "Helvetica", "Times New Roman", "Georgia",
             "Courier New"] ∧
    fonts.length = 6 ∧
    populateFontFamilyDropdown true =
      [("Arial", "Arial"), ("Verdana", "Verdana"), ("Helvetica", "Helvetica"),
       ("Times New Roman", "Times New Roman"), ("Georgia", "Georgia"),
       ("Courier New", "Courier New")] :=
  ⟨rfl, rfl, rfl⟩

/-- C9: within one session starting at counter 0, the counter never decreases
across any sequence of apply clicks (any prefix ends with a counter no larger
than the full sequence's), and the generated style names are pairwise
distinct. -/
theorem styleCounter_monotone_and_names_nodup (pre suf : List ClickEnv) :
    (runSession 0 pre).1 ≤ (runSession 0 (pre ++ suf)).1 ∧
    ((runSession 0 (pre ++ suf)).2.map Prod.fst).Nodup := by
  constructor
  · rw [runSession_counter, runSession_counter, List.length_append]
    omega
  · rw [runSession_names]
    apply List.Nodup.map
    · intro a b hab
      have h2 : 0 + a = 0 + b := nextStyleName_injective hab
      omega
    · exact List.nodup_range _

/-- C10: with a selected element and succeeding style creation and style
save, the NamedStyle carrying exactly the given properties is persisted to
the host regardless of the styles-collection guard; in particular when the
element lacks a styles collection the persisted style is an orphan and the
element itself is untouched and unsaved, with no feedback. -/
theorem applyStyles_orphan_persist (host : Host) (el : SelectedElem)
    (styleObject : List (String × String)) (styleName : String)
    (hsel : host.selectedElement = some el)
    (hcreate : host.createStyleResult = Except.ok ())
    (hsave : host.styleSaveResult = Except.ok ()) :
    (applyStyles host styleObject styleName).persistedStyles =
      [⟨styleName, styleObject⟩] ∧
    (el.hasStyles = false →
      (applyStyles host styleObject styleName).elementStyles = none ∧
      (applyStyles host styleObject styleName).elementSaved = false ∧
      (applyStyles host styleObject styleName).feedbacks = []) := by
  constructor
  · cases hstyles : el.hasStyles
    · simp [applyStyles, hsel, hcreate, hsave, hstyles]
    · cases helsave : el.saveResult with
      | error e => simp [applyStyles, hsel, hcreate, hsave, hstyles, helsave]
      | ok u => simp [applyStyles, hsel, hcreate, hsave, hstyles, helsave]
  · intro hnostyles
    refine ⟨?_, ?_, ?_⟩ <;> simp [applyStyles, hsel, hcreate, hsave, hnostyles]

/-- Witness for C10: the style is persisted in the host even though the
concrete element has no styles collection and is left untouched. -/
theorem applyStyles_orphan_persist_witness :
    (applyStyles
        { selectedElement := some { hasStyles := false,
                                    getStylesResult := Except.ok [],
                                    saveResult := Except.ok () },
          createStyleResult := Except.ok (), styleSaveResult := Except.ok () }
        [("font-size", "12px"), ("color", "#00FF00"), ("font-family", "Georgia")]
        "dynamicStyle3").persistedStyles =
      [⟨"dynamicStyle3",
        [("font-size", "12px"), ("color", "#00FF00"), ("font-family", "Georgia")]⟩] ∧
    ((false : Bool) = false →
      (applyStyles
          { selectedElement := some { hasStyles := false,
                                      getStylesResult := Except.ok [],
                                      saveResult := Except.ok () },
            createStyleResult := Except.ok (), styleSaveResult := Except.ok () }
          [("font-size", "12px"), ("color", "#00FF00"), ("font-family", "Georgia")]
          "dynamicStyle3").elementStyles = none ∧
      (applyStyles
          { selectedElement := some { hasStyles := false,
                                      getStylesResult := Except.ok [],
                                      saveResult := Except.ok () },
            createStyleResult := Except.ok (), styleSaveResult := Except.ok () }
          [("font-size", "12px"), ("color", "#00FF00"), ("font-family", "Georgia")]
          "dynamicStyle3").elementSaved = false ∧
      (applyStyles
          { selectedElement := some { hasStyles := false,
                                      getStylesResult := Except.ok [],
                                      saveResult := Except.ok () },
            createStyleResult := Except.ok (), styleSaveResult := Except.ok () }
          [("font-size", "12px"), ("color", "#00FF00"), ("font-family", "Georgia")]
          "dynamicStyle3").feedbacks = []) :=
  applyStyles_orphan_persist
    { selectedElement := some { hasStyles := false, getStylesResult := Except.ok [],
                                saveResult := Except.ok () },
      createStyleResult := Except.ok (), styleSaveResult := Except.ok () }
    { hasStyles := false, getStylesResult := Except.ok [], saveResult := Except.ok () }
    [("font-size", "12px"), ("color", "#00FF00"), ("font-family", "Georgia")]
    "dynamicStyle3" rfl rfl rfl

end WebflowStyles
